import Mathlib

/-!
Verification of the Telegram file-relay worker (worker.js) against its
specification. The worker is embedded shallowly: each handler becomes a pure
function from the message and one resolution of its external awaits (the fetch
result, the body read, the Bot API upload response) to the list of outbound
actions it performs. JS `null`/`undefined` values are `Option`, a thrown JS
error is the `Except.error`/`Option String` side of a result, and header
strings, file names and URLs are Lean `String`s over their character lists.
-/

deriving instance DecidableEq for Except

namespace TgBot

/-- JS ToString of a possibly-undefined string value: `message.text` may be
`undefined`, and the URL constructor stringifies `undefined` to `"undefined"`
before parsing. -/
def jsOptToString : Option String → String
  | none => "undefined"
  | some s => s

/-- JS ToString of a possibly-null header value: `headers.get` returns `null`
for an absent header, and `parseInt(null, 10)` coerces `null` to the string
`"null"`. -/
def jsHeaderToString : Option String → String
  | none => "null"
  | some s => s

/-- Value of the longest leading decimal-digit run, `none` when there is no
leading digit. -/
def leadingDigits (cs : List Char) : Option Nat :=
  let ds := cs.takeWhile Char.isDigit
  if ds.isEmpty then none
  else some (ds.foldl (fun acc c => acc * 10 + (c.toNat - 48)) 0)

/-- Radix-10 `parseInt` as used on the content-length header (worker.js line
75): skip leading whitespace, take an optional sign and then the longest digit
prefix; `none` models the JS result `NaN`. -/
def jsParseInt10 (s : String) : Option Int :=
  let cs := s.data.dropWhile (fun c => c = ' ' || c = '\t' || c = '\n' || c = '\r')
  match cs with
  | '-' :: rest => (leadingDigits rest).map (fun n => -(n : Int))
  | '+' :: rest => (leadingDigits rest).map (fun n => (n : Int))
  | rest => (leadingDigits rest).map (fun n => (n : Int))

/-- JS `toLowerCase` on the character list of the string; on the ASCII file
names and extensions involved it agrees with the JS Unicode lowering. -/
def strToLower (s : String) : String :=
  String.mk (s.data.map Char.toLower)

/-- The JS test `s.startsWith(p)`, as a test on the character lists. -/
def strStartsWith (s p : String) : Bool :=
  p.data.isPrefixOf s.data

/-- The JS suffix test used by the extension regexes: the name ends with the
given extension string. -/
def strEndsWith (s p : String) : Bool :=
  p.data.isSuffixOf s.data

/-- Test of `isImageExtension` (worker.js lines 233-235): the case-insensitive
regex matching a name that ends in a dot followed by one of the image
extensions; the `i` flag is modelled by lowercasing the input. -/
def isImageExtension (fileName : String) : Bool :=
  [".jpg", ".jpeg", ".png", ".gif", ".bmp", ".webp", ".svg"].any
    (fun e => strEndsWith (strToLower fileName) e)

/-- Test of `isVideoExtension` (worker.js lines 240-242). -/
def isVideoExtension (fileName : String) : Bool :=
  [".mp4", ".avi", ".mov", ".mkv", ".wmv", ".flv", ".webm"].any
    (fun e => strEndsWith (strToLower fileName) e)

/-- Test of `isAudioExtension` (worker.js lines 247-249). -/
def isAudioExtension (fileName : String) : Bool :=
  [".mp3", ".wav", ".aac", ".flac", ".ogg", ".m4a"].any
    (fun e => strEndsWith (strToLower fileName) e)

/-- The four Telegram upload methods the pipeline dispatches to. -/
inductive UploadKind where
  | photo
  | video
  | audio
  | document
  deriving DecidableEq, Repr

/-- V8 TypeError message raised by `contentType.startsWith(...)` when the
content-type header was absent, so that `contentType` is `null`. -/
def nullStartsWithMsg : String :=
  "Cannot read properties of null (reading \x27startsWith\x27)"

/-- The classification step of `onMessage` (worker.js lines 89-98) as a
function of the declared content type and the derived file name. A `none`
content type models `headers.get('content-type')` returning `null`, on which
the very first condition `contentType.startsWith('image/')` throws a
TypeError; `Except.error` carries the raised message. -/
def classify (contentType : Option String) (fileName : String) :
    Except String UploadKind :=
  match contentType with
  | none => .error nullStartsWithMsg
  | some ct =>
    let lowerCaseFileName := strToLower fileName
    if strStartsWith ct "image/" || isImageExtension lowerCaseFileName then
      .ok .photo
    else if strStartsWith ct "video/" || isVideoExtension lowerCaseFileName then
      .ok .video
    else if strStartsWith ct "audio/" || isAudioExtension lowerCaseFileName then
      .ok .audio
    else
      .ok .document

/-- JS `text.split('/')` on the character list of the string: n separators
produce n+1 (possibly empty) segments, exactly as `String.prototype.split`
with a single-character separator. -/
def jsSplitSlash : List Char → List (List Char)
  | [] => [[]]
  | c :: cs =>
    match jsSplitSlash cs with
    | [] => [[]]
    | seg :: segs => if c = '/' then [] :: seg :: segs else (c :: seg) :: segs

/-- Display-name derivation `text.split('/').pop() || 'file'` (worker.js line
77): the last split segment of the whole URL text, replaced by `"file"` when
that segment is the empty string (the empty string is falsy in JS). -/
def fileNameOf (text : String) : String :=
  let popped := String.mk ((jsSplitSlash text.data).getLastD [])
  if popped = "" then "file" else popped

/-- The longest suffix of the text holding no slash: the substring after the
last slash of the whole URL text, as the amended display-name claim states
it. -/
def afterLastSlash (text : String) : List Char :=
  (text.data.reverse.takeWhile (fun c => !(c = '/'))).reverse

/-- The display name as the amended claim states it: the substring of the full
URL text after its last slash, with the fallback `"file"` when that substring
is empty, that is when the text ends in a slash or is empty. -/
def displayNameSpec (text : String) : String :=
  if afterLastSlash text = [] then "file" else String.mk (afterLastSlash text)

/-- Chars allowed after the first one in a URL scheme. -/
def isSchemeChar (c : Char) : Bool :=
  c.isAlphanum || c = '+' || c = '-' || c = '.'

/-- Modelled from the spec: the platform URL constructor `new URL(text)` is a
host builtin whose source is not part of this repository; per the spec, the
text must parse as a well-formed absolute URL with scheme and host present. A
letter-led scheme run, the literal colon-slash-slash separator, then a
nonempty host run up to a slash, question mark or hash. -/
def urlParses (s : String) : Bool :=
  match s.data with
  | [] => false
  | c :: rest =>
    c.isAlpha &&
      (match rest.dropWhile isSchemeChar with
       | ':' :: '/' :: '/' :: hostRest =>
         !((hostRest.takeWhile (fun d => !(d = '/' || d = '?' || d = '#'))).isEmpty)
       | _ => false)

/-- The guard `isValidUrl` (worker.js lines 221-228): `new URL(string)` inside
try/catch, returning false instead of letting the constructor throw; an
undefined `message.text` is stringified before parsing and never parses. -/
def isValidUrl (text : Option String) : Bool :=
  urlParses (jsOptToString text)

/-- Observable effects of one pipeline run, in order performed: the outbound
GET of the user URL, the body materialization `fileResponse.blob()`, a Bot API
multipart upload (method name, form field name, chat id, attachment file
name), and a `sendMessage` text reply. -/
inductive Action where
  | fetchUrl (url : String)
  | readBody
  | upload (method field : String) (chatId : Int) (fileName : String)
  | sendMessage (chatId : Int) (text : String)
  deriving DecidableEq, Repr

/-- The fields of the `fetch(text)` response that `onMessage` consults. The
header values are `Option` because `headers.get` returns `null` for an absent
header. -/
structure FetchResponse where
  ok : Bool
  statusText : String
  contentLength : Option String
  contentType : Option String
  deriving DecidableEq, Repr

/-- The JSON body the Bot API returns to an upload POST: an `ok` flag and a
`description` used in the failure message. -/
structure TgResult where
  ok : Bool
  description : String
  deriving DecidableEq, Repr

/-- One resolution of every external await in the pipeline: the result of
`fetch(text)` (where `Except.error` models a rejected promise), of
`fileResponse.blob()`, and the Bot API response to the upload POST. -/
structure Env where
  fetchResult : Except String FetchResponse
  blobResult : Except String Unit
  uploadResult : TgResult

/-- Function `sendPhoto` (worker.js lines 107-121): POST the multipart form
with field `photo` to the `sendPhoto` method; a response with a falsy `ok`
throws with the platform description embedded. -/
def sendPhoto (env : Env) (chatId : Int) (fileName : String) :
    List Action × Option String :=
  ([.upload "sendPhoto" "photo" chatId fileName],
   if env.uploadResult.ok then none
   else some ("Failed to send photo: " ++ env.uploadResult.description))

/-- Function `sendVideo` (worker.js lines 126-140). -/
def sendVideo (env : Env) (chatId : Int) (fileName : String) :
    List Action × Option String :=
  ([.upload "sendVideo" "video" chatId fileName],
   if env.uploadResult.ok then none
   else some ("Failed to send video: " ++ env.uploadResult.description))

/-- Function `sendAudio` (worker.js lines 145-159). -/
def sendAudio (env : Env) (chatId : Int) (fileName : String) :
    List Action × Option String :=
  ([.upload "sendAudio" "audio" chatId fileName],
   if env.uploadResult.ok then none
   else some ("Failed to send audio: " ++ env.uploadResult.description))

/-- Function `sendDocument` (worker.js lines 164-178). -/
def sendDocument (env : Env) (chatId : Int) (fileName : String) :
    List Action × Option String :=
  ([.upload "sendDocument" "document" chatId fileName],
   if env.uploadResult.ok then none
   else some ("Failed to send document: " ++ env.uploadResult.description))

/-- Dispatch of the classified kind to the matching upload function, as the
if/else chain of worker.js lines 90-98 does. -/
def uploadFor (env : Env) (kind : UploadKind) (chatId : Int) (fileName : String) :
    List Action × Option String :=
  match kind with
  | .photo => sendPhoto env chatId fileName
  | .video => sendVideo env chatId fileName
  | .audio => sendAudio env chatId fileName
  | .document => sendDocument env chatId fileName

/-- The literal guidance message of worker.js line 64. -/
def invalidUrlMsg : String := "Please send a valid URL to download the file."

/-- The literal size-limit message of worker.js line 81. -/
def tooLargeMsg : String := "The file is too large to send (maximum: 50 MB)."

/-- The JS comparison `contentLength > 50 * 1024 * 1024` (worker.js line 80):
with `contentLength` equal to NaN (modelled `none`) every comparison is false,
so the resource is allowed through. -/
def sizeTooLarge : Option Int → Bool
  | none => false
  | some n => decide (50 * 1024 * 1024 < n)

/-- The try block of `onMessage` (worker.js lines 68-98): the actions it
performs in order, paired with the message of the error that aborted it
(`none` when it ran to completion or took the early size-limit return). -/
def tryBlock (env : Env) (chatId : Int) (text : String) :
    List Action × Option String :=
  match env.fetchResult with
  | .error e => ([.fetchUrl text], some e)
  | .ok fileResponse =>
    if !fileResponse.ok then
      ([.fetchUrl text], some ("Failed to download file: " ++ fileResponse.statusText))
    else
      let contentLength := jsParseInt10 (jsHeaderToString fileResponse.contentLength)
      let fileName := fileNameOf text
      if sizeTooLarge contentLength then
        ([.fetchUrl text, .sendMessage chatId tooLargeMsg], none)
      else
        match env.blobResult with
        | .error e => ([.fetchUrl text, .readBody], some e)
        | .ok _ =>
          match classify fileResponse.contentType fileName with
          | .error e => ([.fetchUrl text, .readBody], some e)
          | .ok kind =>
            let sent := uploadFor env kind chatId fileName
            ([.fetchUrl text, .readBody] ++ sent.1, sent.2)

/-- The chat object of an incoming message; only its id is consumed. -/
structure Chat where
  id : Int
  deriving DecidableEq, Repr

/-- An incoming Telegram message: the chat and the optional text
(`message.text` is `undefined` for non-text messages). -/
structure Message where
  chat : Chat
  text : Option String
  deriving DecidableEq, Repr

/-- Handler `onMessage` (worker.js lines 59-102): the invalid-URL guard, then
the try block with its catch turning a raised error into the generic chat
reply. -/
def onMessage (env : Env) (message : Message) : List Action :=
  let chatId := message.chat.id
  let text := message.text
  if !isValidUrl text then
    [.sendMessage chatId invalidUrlMsg]
  else
    let r := tryBlock env chatId (jsOptToString text)
    match r.2 with
    | none => r.1
    | some e => r.1 ++ [.sendMessage chatId ("Error: " ++ e)]

/-- A Telegram update; only the optional `message` field is consumed. -/
structure Update where
  message : Option Message
  deriving DecidableEq, Repr

/-- Handler `onUpdate` (worker.js lines 50-54): runs `onMessage` only when the
update carries a `message` field. -/
def onUpdate (env : Env) (update : Update) : List Action :=
  match update.message with
  | some m => onMessage env m
  | none => []

/-- The static worker configuration: the webhook shared secret. -/
structure Config where
  secret : String

/-- A webhook delivery as `handleWebhook` sees it: the secret header, `none`
when absent since `headers.get` yields `null`, and the result of awaiting
`event.request.json()`, where `Except.error` models a rejected JSON parse. -/
structure WebhookRequest where
  secretHeader : Option String
  jsonResult : Except String Update

/-- The dispatcher response (HTTP status and body) together with the
background work scheduled through `event.waitUntil`. -/
structure DispatchResult where
  status : Nat
  body : String
  background : List Action
  deriving DecidableEq, Repr

/-- Handler `handleWebhook` (worker.js lines 34-45). The `Except.error`
outcome models an exception escaping the handler: `await event.request.json()`
runs before the Ok response is built, so a body that fails JSON parsing
propagates out of the dispatcher; only `onUpdate` is deferred via
`event.waitUntil`. -/
def handleWebhook (cfg : Config) (env : Env) (req : WebhookRequest) :
    Except String DispatchResult :=
  if req.secretHeader ≠ some cfg.secret then
    .ok ⟨403, "Unauthorized", []⟩
  else
    match req.jsonResult with
    | .error e => .error e
    | .ok update => .ok ⟨200, "Ok", onUpdate env update⟩

/-- Sample await resolution: a successful small fetch with a PNG content type
and a succeeding upload. -/
def envOkPng : Env :=
  ⟨Except.ok ⟨true, "OK", some "1000", some "image/png"⟩, Except.ok (), ⟨true, ""⟩⟩

/-- Sample await resolution: a successful fetch declaring a 60000000-byte
content length. -/
def envTooLarge : Env :=
  ⟨Except.ok ⟨true, "OK", some "60000000", some "application/zip"⟩, Except.ok (), ⟨true, ""⟩⟩

/-- Sample await resolution: a successful fetch with no content-length
header. -/
def envNoLength : Env :=
  ⟨Except.ok ⟨true, "OK", none, some "application/zip"⟩, Except.ok (), ⟨true, ""⟩⟩

/-- Sample await resolution: the fetch promise rejects. -/
def envFetchFail : Env :=
  ⟨Except.error "network down", Except.ok (), ⟨true, ""⟩⟩

theorem strStartsWith_head_eq (s p : String) (h : strStartsWith s p = true)
    (c : Char) (hc : p.data.head? = some c) : s.data.head? = some c := by
  unfold strStartsWith at h
  obtain ⟨t, ht⟩ := List.isPrefixOf_iff_prefix.mp h
  cases hp : p.data with
  | nil => rw [hp] at hc; cases hc
  | cons a as =>
    rw [hp] at hc ht
    simp only [List.head?_cons, Option.some.injEq] at hc
    subst hc
    rw [← ht]
    rfl

theorem strStartsWith_false_of_head (s q : String) (c d : Char)
    (hs : s.data.head? = some c) (hq : q.data.head? = some d) (hne : c ≠ d) :
    strStartsWith s q = false := by
  cases h : strStartsWith s q with
  | false => rfl
  | true =>
    have hd := strStartsWith_head_eq s q h d hq
    rw [hs] at hd
    exact absurd (Option.some.inj hd) hne

theorem onMessage_valid_eq (env : Env) (chatId : Int) (s : String)
    (hv : isValidUrl (some s) = true) :
    onMessage env ⟨⟨chatId⟩, some s⟩ =
      (match (tryBlock env chatId s).2 with
       | none => (tryBlock env chatId s).1
       | some e => (tryBlock env chatId s).1 ++
           [Action.sendMessage chatId ("Error: " ++ e)]) := by
  simp [onMessage, hv, jsOptToString]

theorem tryBlock_fst_head (env : Env) (chatId : Int) (text : String) :
    ((tryBlock env chatId text).1).head? = some (Action.fetchUrl text) := by
  unfold tryBlock
  cases env.fetchResult with
  | error e => rfl
  | ok resp =>
    by_cases hok : resp.ok
    · simp only [hok, Bool.not_true, Bool.false_eq_true, if_false]
      by_cases hsz :
          sizeTooLarge (jsParseInt10 (jsHeaderToString resp.contentLength))
      · simp [hsz]
      · simp only [hsz, Bool.false_eq_true, if_false]
        cases env.blobResult with
        | error e => rfl
        | ok u =>
          cases classify resp.contentType (fileNameOf text) with
          | error e => rfl
          | ok kind => rfl
    · simp only [Bool.not_eq_true] at hok
      simp [hok]

theorem tryBlock_eq_of_ok (env : Env) (chatId : Int) (text : String)
    (resp : FetchResponse) (hf : env.fetchResult = Except.ok resp)
    (hok : resp.ok = true) :
    tryBlock env chatId text =
      (if sizeTooLarge (jsParseInt10 (jsHeaderToString resp.contentLength)) then
        ([Action.fetchUrl text, Action.sendMessage chatId tooLargeMsg], none)
      else
        match env.blobResult with
        | .error e => ([Action.fetchUrl text, Action.readBody], some e)
        | .ok _ =>
          match classify resp.contentType (fileNameOf text) with
          | .error e => ([Action.fetchUrl text, Action.readBody], some e)
          | .ok kind =>
            ([Action.fetchUrl text, Action.readBody] ++
              (uploadFor env kind chatId (fileNameOf text)).1,
             (uploadFor env kind chatId (fileNameOf text)).2)) := by
  unfold tryBlock
  rw [hf]
  simp [hok]


/-- C1: the claim that the declared media type is always consulted before the
filename extension fails — an image extension beats a video media type: a
resource declared `video/mp4` but named `clip.jpg` is classified Photo, not
Video. -/
theorem classify_video_mime_beaten_by_image_ext :
    classify (some "video/mp4") "clip.jpg" = Except.ok UploadKind.photo ∧
    UploadKind.photo ≠ UploadKind.video :=
  ⟨by decide, by decide⟩

/-- C1, amended: an `image/*` media type always yields Photo regardless of
extension; a `video/*` media type yields Video unless the filename has a
recognized image extension; an `audio/*` media type yields Audio unless the
filename has a recognized image or video extension. -/
theorem classify_media_type_priority (ct fileName : String) :
    (strStartsWith ct "image/" = true →
      classify (some ct) fileName = Except.ok UploadKind.photo) ∧
    (strStartsWith ct "video/" = true →
      isImageExtension (strToLower fileName) = false →
      classify (some ct) fileName = Except.ok UploadKind.video) ∧
    (strStartsWith ct "audio/" = true →
      isImageExtension (strToLower fileName) = false →
      isVideoExtension (strToLower fileName) = false →
      classify (some ct) fileName = Except.ok UploadKind.audio) := by
  refine ⟨?_, ?_, ?_⟩
  · intro h1
    simp [classify, h1]
  · intro h1 h2
    have hv := strStartsWith_head_eq ct "video/" h1 'v' rfl
    have himg := strStartsWith_false_of_head ct "image/" 'v' 'i' hv rfl (by decide)
    simp [classify, himg, h1, h2]
  · intro h1 h2 h3
    have ha := strStartsWith_head_eq ct "audio/" h1 'a' rfl
    have himg := strStartsWith_false_of_head ct "image/" 'a' 'i' ha rfl (by decide)
    have hvid := strStartsWith_false_of_head ct "video/" 'a' 'v' ha rfl (by decide)
    simp [classify, himg, hvid, h1, h2, h3]

/-- Witness for the amended C1 theorem at a concrete input: an `audio/mpeg`
resource with an unrecognized extension is uploaded as audio. -/
theorem classify_media_type_priority_witness :
    classify (some "audio/mpeg") "song.bin" = Except.ok UploadKind.audio :=
  (classify_media_type_priority "audio/mpeg" "song.bin").2.2
    (by decide) (by decide) (by decide)

/-- C2: evaluating the classification at the failing input — with the
content-type header absent (`null`) and a filename that matches no recognized
extension, classification does not fall back to Document but raises the
TypeError from `null.startsWith`. -/
theorem classify_absent_type_raises :
    classify none "archive.zip" = Except.error nullStartsWithMsg := rfl

/-- C3: evaluating the classification at the failing input — with the
content-type header absent (`null`), the extension fallback is never reached
and even `movie.MP4` raises the TypeError from `null.startsWith`; with a
present but unrecognized media type the claimed extension fallback works. -/
theorem classify_absent_type_raises_on_mp4 :
    classify none "movie.MP4" = Except.error nullStartsWithMsg ∧
    classify (some "application/octet-stream") "movie.MP4" =
      Except.ok UploadKind.video :=
  ⟨rfl, by decide⟩

/-- C7: counterexample — with a matching secret but a body that fails JSON
parsing, the dispatcher does not return 200 Ok: the awaited
`event.request.json()` rejection escapes `handleWebhook` as a fault. -/
theorem webhook_bad_json_faults :
    handleWebhook ⟨"s3cret"⟩ envFetchFail
      ⟨some "s3cret", Except.error "Unexpected token N in JSON at position 0"⟩ =
      Except.error "Unexpected token N in JSON at position 0" := by decide

/-- C7, amended: for every webhook request whose secret matches and whose body
parses as JSON, the dispatcher returns 200 Ok, regardless of the parsed
content and of any downstream pipeline outcome, which runs in the
background. -/
theorem webhook_ack_on_parsed_body (cfg : Config) (env : Env)
    (req : WebhookRequest) (u : Update)
    (hs : req.secretHeader = some cfg.secret)
    (hj : req.jsonResult = Except.ok u) :
    handleWebhook cfg env req = Except.ok ⟨200, "Ok", onUpdate env u⟩ := by
  simp [handleWebhook, hs, hj]

/-- Witness for the amended C7 theorem at a concrete input. -/
theorem webhook_ack_on_parsed_body_witness :
    handleWebhook ⟨"s3cret"⟩ envFetchFail ⟨some "s3cret", Except.ok ⟨none⟩⟩ =
      Except.ok ⟨200, "Ok", []⟩ := by
  have h := webhook_ack_on_parsed_body ⟨"s3cret"⟩ envFetchFail
    ⟨some "s3cret", Except.ok ⟨none⟩⟩ ⟨none⟩ rfl rfl
  simpa [onUpdate] using h

/-- C8: for every webhook request whose secret header differs from the
configured secret, the dispatcher answers 403 Unauthorized, schedules no
background pipeline work, and never inspects the body parse result. -/
theorem webhook_secret_mismatch_rejected (cfg : Config) (env : Env)
    (req : WebhookRequest) (h : req.secretHeader ≠ some cfg.secret) :
    handleWebhook cfg env req = Except.ok ⟨403, "Unauthorized", []⟩ := by
  simp [handleWebhook, h]

/-- Witness for the C8 theorem: a request with no secret header and an
unparseable body is rejected with 403 and nothing else happens. -/
theorem webhook_secret_mismatch_rejected_witness :
    handleWebhook ⟨"s3cret"⟩ envFetchFail ⟨none, Except.error "not json"⟩ =
      Except.ok ⟨403, "Unauthorized", []⟩ :=
  webhook_secret_mismatch_rejected ⟨"s3cret"⟩ envFetchFail
    ⟨none, Except.error "not json"⟩ (by decide)

/-- C10: a message whose text field is absent (`undefined`) does not crash the
pipeline: the stringified value fails URL validation, exactly the guidance
message is sent, and no fetch occurs. -/
theorem missing_text_sends_guidance (env : Env) (chatId : Int) :
    onMessage env ⟨⟨chatId⟩, none⟩ =
      [Action.sendMessage chatId invalidUrlMsg] := by
  have h : isValidUrl none = false := by decide
  simp [onMessage, h]


/-- C4: the size gate. First half: a successful fetch whose content-length
header parses to a value over 50 times 1024 times 1024 produces exactly the
fetch plus the literal size-limit message — in particular the body is never
read. Second half: when the header is absent or unparseable the comparison is
false (NaN comparisons never crash), and the pipeline goes on to read the
body. -/
theorem size_gate :
    (∀ (env : Env) (chatId : Int) (text : String) (resp : FetchResponse)
        (n : Int), isValidUrl (some text) = true →
      env.fetchResult = Except.ok resp → resp.ok = true →
      jsParseInt10 (jsHeaderToString resp.contentLength) = some n →
      50 * 1024 * 1024 < n →
      onMessage env ⟨⟨chatId⟩, some text⟩ =
        [Action.fetchUrl text, Action.sendMessage chatId tooLargeMsg]) ∧
    (∀ (env : Env) (chatId : Int) (text : String) (resp : FetchResponse),
      isValidUrl (some text) = true →
      env.fetchResult = Except.ok resp → resp.ok = true →
      jsParseInt10 (jsHeaderToString resp.contentLength) = none →
      Action.readBody ∈ onMessage env ⟨⟨chatId⟩, some text⟩) := by
  constructor
  · intro env chatId text resp n hv hf hok hp hn
    have hsz : sizeTooLarge (jsParseInt10 (jsHeaderToString resp.contentLength)) = true := by
      rw [hp]
      simpa [sizeTooLarge] using hn
    rw [onMessage_valid_eq env chatId text hv,
      tryBlock_eq_of_ok env chatId text resp hf hok, hsz]
    rfl
  · intro env chatId text resp hv hf hok hp
    have hsz : sizeTooLarge (jsParseInt10 (jsHeaderToString resp.contentLength)) = false := by
      rw [hp]
      rfl
    rw [onMessage_valid_eq env chatId text hv,
      tryBlock_eq_of_ok env chatId text resp hf hok, hsz]
    cases env.blobResult with
    | error e => simp
    | ok u =>
      cases classify resp.contentType (fileNameOf text) with
      | error e => simp
      | ok kind =>
        cases h3 : (uploadFor env kind chatId (fileNameOf text)).2 <;> simp [h3]

/-- Witness for the C4 theorem: a declared 60000000-byte resource triggers
exactly the size message, and a resource with no content-length header gets
its body read. -/
theorem size_gate_witness :
    onMessage envTooLarge ⟨⟨1⟩, some "https://example.com/big.bin"⟩ =
      [Action.fetchUrl "https://example.com/big.bin",
       Action.sendMessage 1 tooLargeMsg] ∧
    Action.readBody ∈ onMessage envNoLength ⟨⟨1⟩, some "https://example.com/big.bin"⟩ :=
  ⟨size_gate.1 envTooLarge 1 "https://example.com/big.bin"
      ⟨true, "OK", some "60000000", some "application/zip"⟩ 60000000
      (by decide) rfl rfl (by decide) (by decide),
   size_gate.2 envNoLength 1 "https://example.com/big.bin"
      ⟨true, "OK", none, some "application/zip"⟩
      (by decide) rfl rfl (by decide)⟩

/-- C5: the URL validation gate. A message whose text does not parse as a URL
produces exactly the literal guidance message and no fetch; a message whose
text does parse starts the pipeline with the fetch of that text. -/
theorem url_validation_gate :
    (∀ (env : Env) (message : Message), isValidUrl message.text = false →
      onMessage env message =
        [Action.sendMessage message.chat.id invalidUrlMsg]) ∧
    (∀ (env : Env) (message : Message) (s : String), message.text = some s →
      isValidUrl message.text = true →
      (onMessage env message).head? = some (Action.fetchUrl s)) := by
  constructor
  · intro env message h
    simp [onMessage, h]
  · intro env message s hs hv
    obtain ⟨⟨cid⟩, mtext⟩ := message
    cases hs
    rw [onMessage_valid_eq env cid s hv]
    have hh := tryBlock_fst_head env cid s
    cases h2 : (tryBlock env cid s).2 with
    | none => exact hh
    | some e =>
      cases hl : (tryBlock env cid s).1 with
      | nil => rw [hl] at hh; cases hh
      | cons a t =>
        rw [hl] at hh
        simpa using hh

/-- Witness for the C5 theorem: a non-URL text gets exactly the guidance
reply, and a well-formed URL is fetched first. -/
theorem url_validation_gate_witness :
    onMessage envOkPng ⟨⟨7⟩, some "not a url"⟩ =
      [Action.sendMessage 7 invalidUrlMsg] ∧
    (onMessage envOkPng ⟨⟨7⟩, some "https://example.com/x.bin"⟩).head? =
      some (Action.fetchUrl "https://example.com/x.bin") :=
  ⟨url_validation_gate.1 envOkPng ⟨⟨7⟩, some "not a url"⟩ (by decide),
   url_validation_gate.2 envOkPng ⟨⟨7⟩, some "https://example.com/x.bin"⟩
     "https://example.com/x.bin" rfl (by decide)⟩

/-- C6: the catch-all. Whatever error any step of the try block raises —
rejected fetch, failed download status, body materialization, classification,
or upload — `onMessage` still returns normally and appends exactly one chat
reply of the form `Error: ` followed by the raised message. -/
theorem pipeline_error_reported (env : Env) (chatId : Int) (text : String)
    (e : String) (hv : isValidUrl (some text) = true)
    (he : (tryBlock env chatId text).2 = some e) :
    onMessage env ⟨⟨chatId⟩, some text⟩ =
      (tryBlock env chatId text).1 ++
        [Action.sendMessage chatId ("Error: " ++ e)] := by
  rw [onMessage_valid_eq env chatId text hv, he]

/-- Witness for the C6 theorem: a rejected fetch promise ends in the single
reply `Error: network down`. -/
theorem pipeline_error_reported_witness :
    onMessage envFetchFail ⟨⟨5⟩, some "https://example.com/a"⟩ =
      [Action.fetchUrl "https://example.com/a",
       Action.sendMessage 5 "Error: network down"] := by
  rw [pipeline_error_reported envFetchFail 5 "https://example.com/a"
    "network down" (by decide) (by decide)]
  decide


theorem jsSplitSlash_ne_nil (cs : List Char) : jsSplitSlash cs ≠ [] := by
  cases cs with
  | nil => simp [jsSplitSlash]
  | cons c rest =>
    unfold jsSplitSlash
    cases h : jsSplitSlash rest with
    | nil => simp
    | cons seg segs => by_cases hc : c = '/' <;> simp [hc]

theorem jsSplitSlash_concat_slash (cs : List Char) :
    jsSplitSlash (cs ++ ['/']) = jsSplitSlash cs ++ [[]] := by
  induction cs with
  | nil => rfl
  | cons c rest ih =>
    cases h : jsSplitSlash rest with
    | nil => exact absurd h (jsSplitSlash_ne_nil rest)
    | cons seg segs =>
      rw [List.cons_append]
      unfold jsSplitSlash
      rw [ih, h]
      by_cases hc : c = '/' <;> simp [hc]

theorem jsSplitSlash_concat_char (cs : List Char) (c : Char) (hc : ¬(c = '/')) :
    jsSplitSlash (cs ++ [c]) =
      (jsSplitSlash cs).dropLast ++ [((jsSplitSlash cs).getLastD []) ++ [c]] := by
  induction cs with
  | nil => simp [jsSplitSlash, hc]
  | cons a rest ih =>
    cases h : jsSplitSlash rest with
    | nil => exact absurd h (jsSplitSlash_ne_nil rest)
    | cons seg segs =>
      rw [List.cons_append]
      unfold jsSplitSlash
      rw [ih, h]
      cases segs with
      | nil => by_cases ha : a = '/' <;> simp [ha]
      | cons s ss =>
        by_cases ha : a = '/' <;>
          simp [ha, List.getLastD_cons, List.dropLast_cons₂]

theorem getLastD_jsSplitSlash (cs : List Char) :
    (jsSplitSlash cs).getLastD [] =
      (cs.reverse.takeWhile (fun c => !(c = '/'))).reverse := by
  induction cs using List.reverseRecOn with
  | nil => rfl
  | append_singleton rest c ih =>
    by_cases hc : c = '/'
    · subst hc
      rw [jsSplitSlash_concat_slash, List.getLastD_concat]
      simp [List.takeWhile_cons]
    · rw [jsSplitSlash_concat_char rest c hc, List.getLastD_concat, ih]
      simp [List.takeWhile_cons, hc]

theorem strMk_eq_empty (l : List Char) : (String.mk l = "") = (l = []) := by
  simp [String.ext_iff]

/-- C9: counterexample — the display name is split from the whole URL text,
not from its path: for a URL carrying a query string the claimed last path
segment would be `cat.png`, but the code derives `cat.png?q=1`. -/
theorem fileName_includes_query :
    fileNameOf "https://example.com/cat.png?q=1" = "cat.png?q=1" ∧
    "cat.png?q=1" ≠ "cat.png" :=
  ⟨by decide, by decide⟩

/-- C9, amended: for every fetched URL the display name equals the substring
of the full URL text after its last slash (query string and fragment
included; the host itself for a URL with no path), and equals the fallback
`file` exactly when that substring is empty, that is when the URL text ends
in a slash. -/
theorem fileNameOf_matches_spec (text : String) :
    fileNameOf text = displayNameSpec text := by
  unfold fileNameOf displayNameSpec afterLastSlash
  rw [getLastD_jsSplitSlash]
  simp only [strMk_eq_empty]

end TgBot
